import Mathlib

/-!
# Verification of the Summarizer coordinator

Shallow embedding of the `Summarizer` class (summarizer.ts): the lifecycle
run loop (`run` / `runCore`), the ack-reconciliation loop
(`handleSummaryAcks`), `stop`, `dispose`, `summarizeOnDemand` and
`enqueueSummarize`. Asynchronous behaviour is embedded deterministically: the
outcomes of the external collaborators (coordinator factory, cancellation
token, `RunningSummarizer`, ack stream) are supplied as scenario data, and
each method is a pure function from that scenario to its observable trace
(the calls it makes on collaborators) and its result.
-/

namespace Summarizer

/-- `SummarizerStopReason` is a string union in the source. -/
abbrev StopReason := String

/-! ## Deferred (write-once future)

`Deferred<SummarizerStopReason>` from `@fluidframework/common-utils`:
`resolve` settles the value only if it is not already settled. -/

/-- State of a `Deferred<SummarizerStopReason>`: `none` = pending. -/
abbrev DeferredState := Option StopReason

/-- `Deferred.resolve`: settle with `r` unless already settled. -/
def deferredResolve (d : DeferredState) (r : StopReason) : DeferredState :=
  match d with
  | none => some r
  | some x => some x

/-- `Summarizer.stop(reason)` — the body is `this.stopDeferred.resolve(reason)`. -/
def stop (d : DeferredState) (reason : StopReason) : DeferredState :=
  deferredResolve d reason

/-! ## Ack reconciliation loop (`handleSummaryAcks`)

```
let refSequenceNumber = this.runtime.deltaManager.initialSequenceNumber;
while (this.runningSummarizer) {
    const summaryLogger = ...;
    try {
        const ack = await this.summaryCollection.waitSummaryAck(refSequenceNumber);
        refSequenceNumber = ack.summaryOp.referenceSequenceNumber;
        await this.internalsProvider.refreshLatestSummaryAck(
            ack.summaryOp.contents.handle, ack.summaryAck.contents.handle,
            refSequenceNumber, summaryLogger);
    } catch (error) {
        summaryLogger.sendErrorEvent({ eventName: "HandleSummaryAckError",
            referenceSequenceNumber }, error);
    }
    refSequenceNumber++;
}
```

One loop iteration consumes one external event: either the awaited
`waitSummaryAck` rejects, or it yields an ack (carrying the summary-op
handle, the summary-ack handle and `summaryOp.referenceSequenceNumber`)
after which the `refreshLatestSummaryAck` callback either succeeds or
throws. The loop runs while `this.runningSummarizer` is set; the event list
covers exactly the iterations before the executor is detached. -/

/-- An ack as delivered by `summaryCollection.waitSummaryAck`. -/
structure SummaryAckMsg where
  referenceSequenceNumber : Nat
  summaryOpHandle : String
  summaryAckHandle : String
  deriving DecidableEq, Repr

/-- External outcome of one iteration of the ack loop. -/
inductive AckEvent where
  /-- `waitSummaryAck` rejected. -/
  | waitFailed
  /-- `waitSummaryAck` yielded `ack`; `refreshFails` tells whether the
  `refreshLatestSummaryAck` callback then threw. -/
  | acked (ack : SummaryAckMsg) (refreshFails : Bool)
  deriving DecidableEq, Repr

/-- One invocation of `refreshLatestSummaryAck`:
(summary-op handle, summary-ack handle, reference sequence number argument). -/
abbrev RefreshCall := String × String × Nat

/-- The body of the `try` block for one iteration at cursor `refSeq`:
the `refreshLatestSummaryAck` invocations it performs (the callback is
invoked even when it then throws), and either the cursor value after the
`try` block (`.ok`) or the value of `refSequenceNumber` at the moment the
exception reaches the `catch` (`.error`). -/
def ackIteration (refSeq : Nat) (ev : AckEvent) : List RefreshCall × Except Nat Nat :=
  match ev with
  | .waitFailed => ([], .error refSeq)
  | .acked ack refreshFails =>
      let r := ack.referenceSequenceNumber
      ([(ack.summaryOpHandle, ack.summaryAckHandle, r)],
        if refreshFails then .error r else .ok r)

/-- Observable outcome of running the ack loop over a list of events. -/
structure AckLoopOut where
  /-- All `refreshLatestSummaryAck` invocations, in order. -/
  refreshCalls : List RefreshCall
  /-- The `referenceSequenceNumber` values logged by `HandleSummaryAckError`
  events, in order. -/
  errorLogs : List Nat
  /-- Number of completed loop iterations. -/
  iterations : Nat
  /-- Final value of the `refSequenceNumber` cursor. -/
  cursor : Nat
  deriving DecidableEq, Repr

/-- The `while (this.runningSummarizer)` loop of `handleSummaryAcks`,
iterating over the supplied external events: each iteration runs
`ackIteration`; an exception is caught, logged with the current cursor
value, and in every case the cursor is then incremented (`refSequenceNumber++`). -/
def handleSummaryAcks : Nat → List AckEvent → AckLoopOut
  | refSeq, [] => ⟨[], [], 0, refSeq⟩
  | refSeq, ev :: rest =>
      match ackIteration refSeq ev with
      | (calls, .ok r) =>
          let out := handleSummaryAcks (r + 1) rest
          ⟨calls ++ out.refreshCalls, out.errorLogs, out.iterations + 1, out.cursor⟩
      | (calls, .error c) =>
          let out := handleSummaryAcks (c + 1) rest
          ⟨calls ++ out.refreshCalls, c :: out.errorLogs, out.iterations + 1, out.cursor⟩

/-- The scenario of the ack-cursor property: acks with reference sequence
numbers 5, 5, 9, 20 received in that order, with an injected failure of the
refresh callback on the third ack. -/
def ackScenario : List AckEvent :=
  [ .acked ⟨5, "op5", "ack5"⟩ false,
    .acked ⟨5, "op5b", "ack5b"⟩ false,
    .acked ⟨9, "op9", "ack9"⟩ true,
    .acked ⟨20, "op20", "ack20"⟩ false ]

/-- Cursor value at the moment an exception of iteration `ev` (entered at
cursor `refSeq`) reaches the `catch` block, when `ev` fails. -/
def ackFailCursor (refSeq : Nat) (ev : AckEvent) : Option Nat :=
  match (ackIteration refSeq ev).2 with
  | .ok _ => none
  | .error c => some c

/-! ## The run loop (`run` / `runCore`)

```
public async run(onBehalfOf, options) {
    try { return await this.runCore(onBehalfOf, options); }
    catch (error) {
        this.stop("summarizerException");
        throw SummarizingWarning.wrap(error, "summarizerRun", false, this.logger);
    } finally { this.dispose(); this.runtime.closeFn(); }
}

private async runCore(onBehalfOf, options) {
    const runCoordinator = await this.runCoordinatorCreateFn(this.runtime);
    const stopP = Promise.race([runCoordinator.waitCancelled, this.stopDeferred.promise]);
    void stopP.then(log);
    if (runCoordinator.cancelled) { return runCoordinator.waitCancelled; }
    const runningSummarizer = await this.start(onBehalfOf, runCoordinator, options);
    const stopReason = await stopP;
    await runningSummarizer.waitStop(!runCoordinator.cancelled);
    runCoordinator.stop(stopReason);
    return stopReason;
}
```

The asynchronous environment of one `run` session is a `RunScenario`:
whether the coordinator factory rejects, whether the token is already
cancelled at the `runCoordinator.cancelled` check, which of the two raced
futures (`runCoordinator.waitCancelled` vs `this.stopDeferred.promise`)
settles `stopP` first and with what reason, whether `start` succeeds
(`runtime.clientId` defined and `RunningSummarizer.start` resolving), and
the value of the token's monotone `cancelled` flag at the moment
`waitStop` is invoked. -/

/-- Which of the two raced futures settles `stopP` first. -/
inductive StopSource where
  | token
  | explicitStop
  deriving DecidableEq, Repr

/-- The asynchronous environment of one `run` session. -/
structure RunScenario where
  /-- `runCoordinatorCreateFn` rejects. -/
  createFails : Bool
  /-- Value of `runCoordinator.cancelled` at the early-return check. -/
  alreadyCancelled : Bool
  /-- The reason `runCoordinator.waitCancelled` resolves with, whenever the
  token is (or becomes) cancelled. -/
  tokenReason : StopReason
  /-- `runtime.clientId` (checked inside `start`). -/
  clientId : Option String
  /-- `RunningSummarizer.start` rejects. -/
  startFails : Bool
  /-- Winner of `Promise.race([runCoordinator.waitCancelled, stopDeferred.promise])`. -/
  winner : StopSource
  /-- The reason `stopDeferred` resolved with, when it did. -/
  explicitReason : StopReason
  /-- Value of the token's `cancelled` flag at the `waitStop` call site. -/
  tokenCancelledAtWaitStop : Bool
  deriving DecidableEq, Repr

/-- A scenario is consistent when the token flag is monotone with the
events: a token already cancelled at the check or winning the race is
still cancelled at the `waitStop` read. -/
def RunScenario.consistent (sc : RunScenario) : Prop :=
  (sc.winner = .token → sc.tokenCancelledAtWaitStop = true) ∧
  (sc.alreadyCancelled = true → sc.tokenCancelledAtWaitStop = true)

instance (sc : RunScenario) : Decidable sc.consistent := by
  unfold RunScenario.consistent; infer_instance

/-- The reason `stopP` resolves with: the reason of the race winner. -/
def RunScenario.stopReason (sc : RunScenario) : StopReason :=
  match sc.winner with
  | .token => sc.tokenReason
  | .explicitStop => sc.explicitReason

/-- The ways `runCore` can throw in a scenario. -/
inductive RunFault where
  /-- `runCoordinatorCreateFn` rejected. -/
  | createFailed
  /-- `start` threw `Error("clientId should be defined if connected.")`. -/
  | clientIdUndefined
  /-- `RunningSummarizer.start` rejected. -/
  | startFailed
  deriving DecidableEq, Repr

/-- Observable collaborator calls made by `runCore`. -/
structure CoreTrace where
  /-- `RunningSummarizer.start` resolved and the executor was attached. -/
  startCalled : Bool
  /-- Number of op listeners registered in `start` (`inbound.on("op", ...)`
  and `runtime.on("batchEnd", ...)`). -/
  opListenersRegistered : Nat
  /-- Arguments of the `runningSummarizer.waitStop` calls, in order. -/
  waitStopCalls : List Bool
  /-- Arguments of the `runCoordinator.stop` calls, in order. -/
  coordStopCalls : List StopReason
  deriving DecidableEq, Repr

/-- The empty collaborator trace. -/
def CoreTrace.empty : CoreTrace := ⟨false, 0, [], []⟩

/-- `runCore`, as a function of the scenario: the collaborator calls it
performs and its outcome (`.ok reason` for a normal return, `.error` for a
thrown exception). -/
def runCore (sc : RunScenario) : CoreTrace × Except RunFault StopReason :=
  if sc.createFails then (CoreTrace.empty, .error .createFailed)
  else if sc.alreadyCancelled then
    (CoreTrace.empty, .ok sc.tokenReason)
  else
    match sc.clientId with
    | none => (CoreTrace.empty, .error .clientIdUndefined)
    | some _ =>
      if sc.startFails then (CoreTrace.empty, .error .startFailed)
      else
        (⟨true, 2, [!sc.tokenCancelledAtWaitStop], [sc.stopReason]⟩,
          .ok sc.stopReason)

/-- The error `run` rethrows: a `SummarizingWarning` wrapping the inner
error (`errorType = "summarizingError"`, `canRetry = true`, wrapped with
`fluidErrorCode = "summarizerRun"`). -/
structure SummarizingWarningM where
  errorType : String
  canRetry : Bool
  fluidErrorCode : String
  /-- The fault the warning wraps. -/
  wrapped : RunFault
  deriving DecidableEq, Repr

/-- `SummarizingWarning.wrap(error, "summarizerRun", false, logger)`:
the class fixes `errorType = "summarizingError"` and `canRetry = true`. -/
def summarizingWarningWrap (f : RunFault) : SummarizingWarningM :=
  ⟨"summarizingError", true, "summarizerRun", f⟩

deriving instance DecidableEq for Except

/-- Full observable outcome of `run`. -/
structure RunOut where
  core : CoreTrace
  /-- Arguments of `this.stop(...)` calls made by `run` itself (its `catch`). -/
  stopCalls : List StopReason
  /-- Number of `this.dispose()` calls made by `run` (its `finally`). -/
  disposeCalls : Nat
  /-- Number of `this.runtime.closeFn()` calls made by `run` (its `finally`). -/
  closeFnCalls : Nat
  result : Except SummarizingWarningM StopReason
  deriving DecidableEq, Repr

/-- `run`: `try runCore` / `catch` (stop with `summarizerException`, wrap,
rethrow) / `finally` (dispose, closeFn). -/
def run (sc : RunScenario) : RunOut :=
  match runCore sc with
  | (tr, .ok reason) => ⟨tr, [], 1, 1, .ok reason⟩
  | (tr, .error f) =>
      ⟨tr, ["summarizerException"], 1, 1, .error (summarizingWarningWrap f)⟩

/-- The scenario of the connectivity-loss test: `run("client-A")`, then the
cancellation token is externally resolved with reason `"connectivityLoss"`
(so the token wins the race and its `cancelled` flag is set). -/
def connectivityLossScenario : RunScenario :=
  { createFails := false
    alreadyCancelled := false
    tokenReason := "connectivityLoss"
    clientId := some "client-A"
    startFails := false
    winner := .token
    explicitReason := ""
    tokenCancelledAtWaitStop := true }

/-! ## Dispose (`dispose`)

```
public dispose() {
    this.stop("summarizerClientDisconnected");
    this._disposed = true;
    if (this.runningSummarizer) {
        this.runningSummarizer.dispose();
        this.runningSummarizer = undefined;
    }
    if (this.systemOpListener) {
        this.runtime.deltaManager.inbound.off("op", this.systemOpListener);
    }
    if (this.opListener) {
        this.runtime.removeListener("batchEnd", this.opListener);
    }
}
```

Listeners are identified by `Nat` ids; the two event emitters
(`deltaManager.inbound` for `"op"` and the runtime itself for `"batchEnd"`)
are lists of registered listener ids, and `off` / `removeListener` removes
the first matching registration, if any (Node `EventEmitter` semantics).
Note the source does not clear `systemOpListener` / `opListener`, so a
repeated `dispose()` calls `off` again; that second `off` finds no
registration left to remove. -/

/-- The `Summarizer` fields touched by `dispose`, together with the
observable state of the two emitters and a count of
`runningSummarizer.dispose()` calls. -/
structure DisposeState where
  stopDeferred : DeferredState
  _disposed : Bool
  /-- Whether `this.runningSummarizer` is set. -/
  runningSummarizer : Bool
  systemOpListener : Option Nat
  opListener : Option Nat
  /-- Listener ids registered on `deltaManager.inbound` for `"op"`. -/
  inboundOpListeners : List Nat
  /-- Listener ids registered on the runtime for `"batchEnd"`. -/
  batchEndListeners : List Nat
  /-- Number of `runningSummarizer.dispose()` invocations so far. -/
  execDisposeCount : Nat
  deriving DecidableEq, Repr

/-- The primitive actions `dispose` can perform, in the order performed. -/
inductive DisposeAction where
  | stopResolve
  | setDisposed
  | execDispose
  | detachExec
  | offSystemOp
  | offBatchEnd
  deriving DecidableEq, Repr

/-- `dispose()`: returns the new state and the list of actions performed. -/
def dispose (s : DisposeState) : DisposeState × List DisposeAction :=
  let s1 : DisposeState :=
    { s with stopDeferred := stop s.stopDeferred "summarizerClientDisconnected" }
  let s2 : DisposeState := { s1 with _disposed := true }
  let (s3, a3) :=
    if s2.runningSummarizer then
      ({ s2 with execDisposeCount := s2.execDisposeCount + 1, runningSummarizer := false },
        [DisposeAction.execDispose, DisposeAction.detachExec])
    else (s2, [])
  let (s4, a4) :=
    match s3.systemOpListener with
    | some l => ({ s3 with inboundOpListeners := s3.inboundOpListeners.erase l },
        [DisposeAction.offSystemOp])
    | none => (s3, [])
  let (s5, a5) :=
    match s4.opListener with
    | some l => ({ s4 with batchEndListeners := s4.batchEndListeners.erase l },
        [DisposeAction.offBatchEnd])
    | none => (s4, [])
  (s5, [DisposeAction.stopResolve, DisposeAction.setDisposed] ++ a3 ++ a4 ++ a5)

/-- `n` successive `dispose()` calls. -/
def disposeN : Nat → DisposeState → DisposeState
  | 0, s => s
  | n + 1, s => disposeN n (dispose s).1

/-! ## On-demand summarize (`summarizeOnDemand`)

```
public readonly summarizeOnDemand = (...args) => {
    try {
        if (this._disposed) { throw Error("Summarizer is already disposed."); }
        if (this.runtime.summarizerClientId !== undefined &&
            this.runtime.summarizerClientId !== this.runtime.clientId) {
            throw Error("On-demand summary attempted while an elected summarizer is present");
        }
        const builder = new OnDemandSummarizeResultBuilder();
        if (this.runningSummarizer && !this.runningSummarizer.disposed) {
            builder.summarizerStarted.resolve({ success: true, data: undefined });
            return this.runningSummarizer.summarizeOnDemand(builder, ...args);
        }
        this.runningSummarizer = undefined;
        const coordinatorCreateP = this.runCoordinatorCreateFn(this.runtime);
        coordinatorCreateP.then((runCoordinator) => {
            const startP = this.start(this.runtime.clientId!, runCoordinator,
                { disableHeuristics: true });
            startP.then(async (runningSummarizer) => {
                builder.summarizerStarted.resolve({ success: true, data: undefined });
                runningSummarizer.summarizeOnDemand(builder, ...args);
                const stopReason = await Promise.race(
                    [this.stopDeferred.promise, runCoordinator.waitCancelled]);
                await runningSummarizer.waitStop(false);
                runCoordinator.stop(stopReason);
                this.dispose();
                this.runtime.closeFn();
            }).catch((reason) => { builder.fail("Failed to start summarizer", reason); });
        }).catch((reason) => { builder.fail("Failed to create cancellation token", reason); });
        return builder.build();
    } catch (error) {
        throw SummarizingWarning.wrap(error, "summarizerRun", false, this.logger);
    }
};
```

The synchronous part either throws (wrapped) or returns the builder; every
fault of the asynchronous bootstrap chain is routed into `builder.fail`. -/

/-- Environment of one `summarizeOnDemand` call: the fields it reads, and
the outcomes of the asynchronous collaborators the slow path awaits. -/
structure OnDemandScenario where
  _disposed : Bool
  summarizerClientId : Option String
  clientId : Option String
  /-- `this.runningSummarizer` is set. -/
  runningAttached : Bool
  /-- `this.runningSummarizer.disposed` (read only when attached). -/
  runningDisposed : Bool
  /-- `runCoordinatorCreateFn` rejects. -/
  createFails : Bool
  /-- `RunningSummarizer.start` rejects. -/
  startFails : Bool
  /-- Winner of `Promise.race([this.stopDeferred.promise,
  runCoordinator.waitCancelled])` in the teardown chain. -/
  teardownReason : StopReason
  deriving DecidableEq, Repr

/-- Resolution of the builder's `summarizerStarted` stage. -/
inductive StartedStage where
  | success
  /-- `builder.fail(message, reason)` was called with this message. -/
  | failed (message : String)
  deriving DecidableEq, Repr

/-- Observable collaborator calls of the `summarizeOnDemand` slow path's
asynchronous chain. -/
structure OnDemandTrace where
  /-- `disableHeuristics` in the options passed to `start`, when the slow
  path called `start`. -/
  startDisableHeuristics : Option Bool
  /-- The request was forwarded to the already-running executor (fast path). -/
  forwardedToRunning : Bool
  /-- The request was forwarded to the freshly started executor (slow path). -/
  forwardedToNew : Bool
  /-- Arguments of `runningSummarizer.waitStop` calls. -/
  waitStopCalls : List Bool
  /-- Arguments of `runCoordinator.stop` calls. -/
  coordStopCalls : List StopReason
  /-- Number of `this.dispose()` calls made by the teardown chain. -/
  disposeCalls : Nat
  /-- Number of `this.runtime.closeFn()` calls made by the teardown chain. -/
  closeFnCalls : Nat
  deriving DecidableEq, Repr

/-- The trace of a call that performed no asynchronous work. -/
def OnDemandTrace.none : OnDemandTrace := ⟨Option.none, false, false, [], [], 0, 0⟩

/-- Outcome of `summarizeOnDemand`: a synchronous throw of the wrapped
precondition error, or the returned builder (with the eventual resolution
of its `summarizerStarted` stage) plus the asynchronous trace. -/
inductive OnDemandResult where
  | thrown (errorMessage : String)
  | returned (started : StartedStage) (tr : OnDemandTrace)
  deriving DecidableEq, Repr

/-- `summarizeOnDemand`, as a function of the scenario. -/
def summarizeOnDemand (sc : OnDemandScenario) : OnDemandResult :=
  if sc._disposed then
    .thrown "Summarizer is already disposed."
  else if sc.summarizerClientId.isSome ∧ sc.summarizerClientId ≠ sc.clientId then
    .thrown "On-demand summary attempted while an elected summarizer is present"
  else if sc.runningAttached ∧ ¬sc.runningDisposed then
    .returned .success
      { OnDemandTrace.none with forwardedToRunning := true }
  else if sc.createFails then
    .returned (.failed "Failed to create cancellation token") OnDemandTrace.none
  else if sc.clientId = Option.none ∨ sc.startFails then
    .returned (.failed "Failed to start summarizer")
      { OnDemandTrace.none with startDisableHeuristics := some true }
  else
    .returned .success
      { startDisableHeuristics := some true
        forwardedToRunning := false
        forwardedToNew := true
        waitStopCalls := [false]
        coordStopCalls := [sc.teardownReason]
        disposeCalls := 1
        closeFnCalls := 1 }

/-- Whether an `OnDemandResult` is a synchronous throw. -/
def OnDemandResult.isThrown : OnDemandResult → Bool
  | .thrown _ => true
  | .returned _ _ => false

/-! ## Enqueue summarize (`enqueueSummarize`)

```
public readonly enqueueSummarize = (...args) => {
    if (this._disposed || this.runningSummarizer === undefined || this.runningSummarizer.disposed) {
        throw Error("Summarizer is not running or already disposed.");
    }
    return this.runningSummarizer.enqueueSummarize(...args);
};
```
-/

/-- `enqueueSummarize` over an abstract argument/result type: the executor's
entry point is the function `exec`; a throw is `.error`, a normal return is
`.ok` of the executor's result. -/
def enqueueSummarize {α β : Type} (_disposed : Bool) (runningAttached : Bool)
    (runningDisposed : Bool) (exec : α → β) (args : α) : Except String β :=
  if _disposed ∨ runningAttached = false ∨ runningDisposed then
    .error "Summarizer is not running or already disposed."
  else
    .ok (exec args)

/-! ## Theorems -/

/-- C7: `stop(reason)` resolves the write-once `stopDeferred`; once it is
resolved, any later `stop` — with the same or a different reason — is a
no-op, so calling `stop` twice has the same observable effect as calling it
once. -/
theorem stop_write_once :
    ∀ (d : DeferredState) (r r' : StopReason),
      stop (stop d r) r' = stop d r ∧ stop (stop d r) r = stop d r := by
  intro d r r'
  cases d <;> simp [stop, deferredResolve]

/-- C10: `enqueueSummarize` throws exactly when the coordinator is disposed
or no non-disposed executor is attached; otherwise it returns exactly the
executor's entry point applied to the unchanged arguments. -/
theorem enqueueSummarize_forwards_or_throws :
    ∀ {α β : Type} (d a rd : Bool) (exec : α → β) (args : α),
      (enqueueSummarize d a rd exec args =
          .error "Summarizer is not running or already disposed."
        ↔ (d = true ∨ a = false ∨ rd = true)) ∧
      (enqueueSummarize d a rd exec args = .ok (exec args)
        ↔ (d = false ∧ a = true ∧ rd = false)) := by
  intro α β d a rd exec args
  cases d <;> cases a <;> cases rd <;> simp [enqueueSummarize]

/-- Witness for C10 at a concrete executor function and argument. -/
theorem enqueueSummarize_forwards_or_throws_witness :
    enqueueSummarize false true false (fun n : Nat => n + 1) 41 = .ok 42 := by
  exact (enqueueSummarize_forwards_or_throws false true false
    (fun n : Nat => n + 1) 41).2.mpr ⟨rfl, rfl, rfl⟩

/-- C4: if the cancellation token is already cancelled when `runCore`
checks it, `run` returns the token's cancellation reason, the
`RunningSummarizer` is never constructed, and no op listeners are
registered. -/
theorem run_already_cancelled_no_start :
    ∀ (sc : RunScenario),
      sc.createFails = false →
      sc.alreadyCancelled = true →
      (run sc).result = .ok sc.tokenReason ∧
      (run sc).core.startCalled = false ∧
      (run sc).core.opListenersRegistered = 0 := by
  intro sc h1 h2
  simp [run, runCore, h1, h2, CoreTrace.empty]

/-- Witness for C4 at a concrete already-cancelled scenario. -/
theorem run_already_cancelled_no_start_witness :
    (run { createFails := false, alreadyCancelled := true,
           tokenReason := "parentNotConnected", clientId := some "c",
           startFails := false, winner := .token, explicitReason := "",
           tokenCancelledAtWaitStop := true }).result = .ok "parentNotConnected" := by
  exact (run_already_cancelled_no_start _ rfl rfl).1

/-- C5: every exception thrown inside `run`'s body makes `run` call
`this.stop("summarizerException")`, rethrow the error wrapped as a
`SummarizingWarning` with `canRetry = true`; and in every execution,
successful or not, the `finally` block disposes the coordinator and invokes
the runtime's `closeFn` exactly once each. -/
theorem run_exception_wrapped_and_finally :
    ∀ (sc : RunScenario),
      ((run sc).disposeCalls = 1 ∧ (run sc).closeFnCalls = 1) ∧
      (∀ f : RunFault, (runCore sc).2 = .error f →
        (run sc).stopCalls = ["summarizerException"] ∧
        (run sc).result = .error (summarizingWarningWrap f) ∧
        (summarizingWarningWrap f).canRetry = true ∧
        (summarizingWarningWrap f).errorType = "summarizingError") := by
  intro sc
  rcases hrc : runCore sc with ⟨tr, res⟩
  cases res with
  | ok r =>
      refine ⟨by simp [run, hrc], ?_⟩
      intro f hf
      simp at hf
  | error f0 =>
      refine ⟨by simp [run, hrc], ?_⟩
      intro f hf
      simp at hf
      subst hf
      simp [run, hrc, summarizingWarningWrap]

/-- Witness for C5 at a scenario whose coordinator factory rejects. -/
theorem run_exception_wrapped_and_finally_witness :
    (run { createFails := true, alreadyCancelled := false, tokenReason := "",
           clientId := some "c", startFails := false, winner := .token,
           explicitReason := "", tokenCancelledAtWaitStop := true }).stopCalls
      = ["summarizerException"] := by
  have h := run_exception_wrapped_and_finally
    { createFails := true, alreadyCancelled := false, tokenReason := "",
      clientId := some "c", startFails := false, winner := .token,
      explicitReason := "", tokenCancelledAtWaitStop := true }
  exact (h.2 .createFailed rfl).1

/-- C1 counterexample: in the run where acks with reference sequence
numbers 5, 5, 9, 20 are received in that order (initial sequence number 0,
refresh failure injected on the third ack), `refreshLatestSummaryAck` is
invoked with reference sequence numbers 5, 5, 9, 20 — not with the claimed
cursor values 6, 6, 10, 21. -/
theorem ackLoop_refresh_not_plus_one :
    (handleSummaryAcks 0 ackScenario).refreshCalls.map (fun c => c.2.2)
        = [5, 5, 9, 20] ∧
    ¬ ((handleSummaryAcks 0 ackScenario).refreshCalls.map (fun c => c.2.2)
        = [6, 6, 10, 21]) := by
  decide

/-- C1 amended: in that same run, each iteration first sets the cursor to
`ack.referenceSequenceNumber` and invokes the refresh callback with that
value (5, 5, 9, 20); the cursor is advanced to
`ack.referenceSequenceNumber + 1` only at the end of the iteration (the
loop ends with cursor 21 = 20 + 1); the injected failure on the third ack
is logged at its reference number 9, and the fourth ack is still processed
(all four iterations run and the fourth refresh call carries 20). -/
theorem ackLoop_refresh_values_scenario :
    (handleSummaryAcks 0 ackScenario).refreshCalls =
      [("op5", "ack5", 5), ("op5b", "ack5b", 5),
       ("op9", "ack9", 9), ("op20", "ack20", 20)] ∧
    (handleSummaryAcks 0 ackScenario).errorLogs = [9] ∧
    (handleSummaryAcks 0 ackScenario).iterations = 4 ∧
    (handleSummaryAcks 0 ackScenario).cursor = 21 := by
  decide

/-- C2 counterexample: in the connectivity-loss scenario (token externally
resolved with `"connectivityLoss"` after `run("client-A")`), `run` does
resolve to `"connectivityLoss"` and `closeFn` fires exactly once, but
`waitStop` is called with `allowLastSummary = false` — the source passes
`!runCoordinator.cancelled` and the token is cancelled — not `true` as
claimed. -/
theorem run_connectivityLoss_not_allowLast :
    (run connectivityLossScenario).core.waitStopCalls = [false] ∧
    ¬ ((run connectivityLossScenario).core.waitStopCalls = [true]) ∧
    (run connectivityLossScenario).result = .ok "connectivityLoss" ∧
    (run connectivityLossScenario).closeFnCalls = 1 := by
  refine ⟨rfl, by decide, rfl, rfl⟩

/-- C2 amended: for every session that reaches the race (factory resolves,
token not already cancelled, `start` succeeds), `run` resolves exactly once
with the reason of whichever of {explicit stop, token cancellation} was
triggered first; the winning reason is propagated into the token via
`runCoordinator.stop` and then returned; `waitStop` is called once with
`allowLastSummary = true` exactly when the token's `cancelled` flag is not
set at that moment; and `closeFn` fires exactly once. In the particular
connectivity-loss scenario, `run` resolves to `"connectivityLoss"` with
`waitStop` called with `allowLastSummary = false` (the token was
triggered) and `closeFn` invoked exactly once. -/
theorem run_resolves_with_first_reason :
    (∀ sc : RunScenario, sc.consistent →
      sc.createFails = false → sc.alreadyCancelled = false →
      sc.clientId.isSome → sc.startFails = false →
      (run sc).result = .ok sc.stopReason ∧
      (run sc).core.waitStopCalls = [!sc.tokenCancelledAtWaitStop] ∧
      (run sc).core.coordStopCalls = [sc.stopReason] ∧
      (run sc).closeFnCalls = 1 ∧ (run sc).disposeCalls = 1) ∧
    ((run connectivityLossScenario).result = .ok "connectivityLoss" ∧
     (run connectivityLossScenario).core.waitStopCalls = [false] ∧
     (run connectivityLossScenario).closeFnCalls = 1) := by
  constructor
  · intro sc _ h1 h2 h3 h4
    rcases hcl : sc.clientId with _ | c
    · rw [hcl] at h3; simp at h3
    · simp [run, runCore, h1, h2, h4, hcl]
  · exact ⟨rfl, rfl, rfl⟩

/-- Witness for C2 (amended) at the connectivity-loss scenario. -/
theorem run_resolves_with_first_reason_witness :
    (run connectivityLossScenario).result = .ok "connectivityLoss" ∧
    (run connectivityLossScenario).core.waitStopCalls = [false] := by
  have h := run_resolves_with_first_reason.1 connectivityLossScenario
    (by constructor <;> intro <;> rfl) rfl rfl rfl rfl
  exact ⟨h.1, h.2.1⟩

/-- C3: a per-iteration failure of the ack loop — the `waitSummaryAck`
rejecting or the refresh callback throwing — is caught inside the loop and
logged with the value of the cursor at the time of the failure; the cursor
then advances by one past that value, and the loop goes on to process the
remaining events exactly as it otherwise would (same refresh calls, same
logs, one iteration counted per event). The failure produces an ordinary
`AckLoopOut`; nothing escapes to the caller of `handleSummaryAcks`. -/
theorem ackLoop_failure_logged_and_continues :
    ∀ (refSeq : Nat) (ev : AckEvent) (rest : List AckEvent) (c : Nat),
      ackFailCursor refSeq ev = some c →
      handleSummaryAcks refSeq (ev :: rest) =
        ⟨(ackIteration refSeq ev).1 ++ (handleSummaryAcks (c + 1) rest).refreshCalls,
         c :: (handleSummaryAcks (c + 1) rest).errorLogs,
         (handleSummaryAcks (c + 1) rest).iterations + 1,
         (handleSummaryAcks (c + 1) rest).cursor⟩ := by
  intro refSeq ev rest c h
  cases ev with
  | waitFailed =>
      simp [ackFailCursor, ackIteration] at h
      subst h
      simp [handleSummaryAcks, ackIteration]
  | acked ack refreshFails =>
      cases refreshFails with
      | false => simp [ackFailCursor, ackIteration] at h
      | true =>
          simp [ackFailCursor, ackIteration] at h
          subst h
          simp [handleSummaryAcks, ackIteration]

/-- Witness for C3: a failing wait at cursor 3 is logged as 3 and the
following ack (reference number 7) is still processed. -/
theorem ackLoop_failure_logged_and_continues_witness :
    handleSummaryAcks 3 [AckEvent.waitFailed, AckEvent.acked ⟨7, "s7", "a7"⟩ false] =
      ⟨[("s7", "a7", 7)], [3], 2, 8⟩ := by
  have h := ackLoop_failure_logged_and_continues 3 AckEvent.waitFailed
    [AckEvent.acked ⟨7, "s7", "a7"⟩ false] 3 (by decide)
  rw [h]
  decide

/-- Resolving a deferred always leaves it settled: with its old value if it
was already settled, with the new reason otherwise. -/
theorem stop_getD (d : DeferredState) (r : StopReason) :
    stop d r = some (d.getD r) := by
  cases d <;> rfl

/-- A `dispose` call on a freshly started coordinator (executor attached,
each listener registered) performs the full teardown in source order. -/
theorem dispose_started (s : DisposeState) (a b : Nat)
    (h2 : s.runningSummarizer = true)
    (hsys : s.systemOpListener = some a)
    (hop : s.opListener = some b) :
    dispose s =
      ({ s with
          stopDeferred := some (s.stopDeferred.getD "summarizerClientDisconnected"),
          _disposed := true,
          runningSummarizer := false,
          execDisposeCount := s.execDisposeCount + 1,
          inboundOpListeners := s.inboundOpListeners.erase a,
          batchEndListeners := s.batchEndListeners.erase b },
        [DisposeAction.stopResolve, DisposeAction.setDisposed,
         DisposeAction.execDispose, DisposeAction.detachExec,
         DisposeAction.offSystemOp, DisposeAction.offBatchEnd]) := by
  simp [dispose, h2, hsys, hop, stop_getD]

/-- A state that is already fully torn down is a fixed point of `dispose`:
the deferred is settled, there is no executor to dispose, and the
still-populated listener fields point at listeners no longer registered, so
the repeated `off` calls remove nothing. -/
theorem dispose_fixed (s : DisposeState)
    (hd : s.stopDeferred ≠ none)
    (hr : s.runningSummarizer = false)
    (hdis : s._disposed = true)
    (hsys : ∀ l, s.systemOpListener = some l → l ∉ s.inboundOpListeners)
    (hop : ∀ l, s.opListener = some l → l ∉ s.batchEndListeners) :
    (dispose s).1 = s := by
  obtain ⟨sd, dis, rs, sys, op, inb, bat, ec⟩ := s
  dsimp only at hd hr hdis hsys hop
  subst hr hdis
  rcases sd with _ | v
  · exact absurd rfl hd
  · rcases sys with _ | l1
    · rcases op with _ | l2
      · simp [dispose, stop, deferredResolve]
      · simp [dispose, stop, deferredResolve,
          List.erase_of_not_mem (hop l2 rfl)]
    · rcases op with _ | l2
      · simp [dispose, stop, deferredResolve,
          List.erase_of_not_mem (hsys l1 rfl)]
      · simp [dispose, stop, deferredResolve,
          List.erase_of_not_mem (hsys l1 rfl), List.erase_of_not_mem (hop l2 rfl)]

/-- Iterating `dispose` from a fixed point stays there. -/
theorem disposeN_fixed (s : DisposeState) (h : (dispose s).1 = s) :
    ∀ n, disposeN n s = s := by
  intro n
  induction n with
  | zero => rfl
  | succ m ih => simpa [disposeN, h] using ih

/-- C6: from a started session (executor attached, the system-op listener
and the batch-op listener each registered exactly once), `dispose()` called
`N ≥ 1` times executes teardown exactly once: the executor's `dispose` is
invoked exactly once, each listener has been removed from its emitter
exactly once (later calls find nothing to remove), the disposed flag is
set, and every call leaves the `StopRequest` resolved — with
`"summarizerClientDisconnected"` if it was not already resolved, with its
prior reason otherwise. The single-call action trace shows `setDisposed`
performed before `detachExec`. -/
theorem dispose_idempotent_teardown_once :
    ∀ (s : DisposeState) (a b : Nat) (n : Nat),
      s.runningSummarizer = true →
      s.systemOpListener = some a →
      s.opListener = some b →
      s.inboundOpListeners.count a = 1 →
      s.batchEndListeners.count b = 1 →
      s.execDisposeCount = 0 →
      1 ≤ n →
      (disposeN n s).execDisposeCount = 1 ∧
      (disposeN n s).inboundOpListeners.count a = 0 ∧
      (disposeN n s).batchEndListeners.count b = 0 ∧
      (disposeN n s)._disposed = true ∧
      (disposeN n s).stopDeferred =
        some (s.stopDeferred.getD "summarizerClientDisconnected") ∧
      (dispose s).2 =
        [DisposeAction.stopResolve, DisposeAction.setDisposed,
         DisposeAction.execDispose, DisposeAction.detachExec,
         DisposeAction.offSystemOp, DisposeAction.offBatchEnd] := by
  intro s a b n h2 hsys hop hc1 hc2 he hn
  obtain ⟨m, rfl⟩ : ∃ m, n = m + 1 := ⟨n - 1, by omega⟩
  have hds := dispose_started s a b h2 hsys hop
  have hca : (s.inboundOpListeners.erase a).count a = 0 := by
    rw [List.count_erase_self, hc1]
  have hcb : (s.batchEndListeners.erase b).count b = 0 := by
    rw [List.count_erase_self, hc2]
  have hfix : (dispose (dispose s).1).1 = (dispose s).1 := by
    rw [hds]
    apply dispose_fixed
    · simp
    · rfl
    · rfl
    · intro l hl
      simp at hl
      rw [hsys] at hl
      simp at hl
      subst hl
      simpa using List.count_eq_zero.mp hca
    · intro l hl
      simp at hl
      rw [hop] at hl
      simp at hl
      subst hl
      simpa using List.count_eq_zero.mp hcb
  have hiter : disposeN (m + 1) s = (dispose s).1 := by
    simpa [disposeN] using disposeN_fixed (dispose s).1 hfix m
  rw [hiter, hds]
  exact ⟨by simp [he], by simpa using hca, by simpa using hcb, rfl, rfl, rfl⟩

/-- Witness for C6: three `dispose()` calls on a concrete started state
tear down exactly once. -/
theorem dispose_idempotent_teardown_once_witness :
    (disposeN 3 { stopDeferred := none,
                  _disposed := false,
                  runningSummarizer := true,
                  systemOpListener := some 10,
                  opListener := some 11,
                  inboundOpListeners := [10],
                  batchEndListeners := [11],
                  execDisposeCount := 0 }).execDisposeCount = 1 := by
  have h := dispose_idempotent_teardown_once
    { stopDeferred := none, _disposed := false, runningSummarizer := true,
      systemOpListener := some 10, opListener := some 11,
      inboundOpListeners := [10], batchEndListeners := [11],
      execDisposeCount := 0 } 10 11 3 rfl rfl rfl (by decide) (by decide) rfl
    (by decide)
  exact h.1

/-- C8: `summarizeOnDemand` throws synchronously exactly when the
coordinator is disposed or a distinct client is the elected summarizer; in
every other case it returns the builder, and a fault of the asynchronous
bootstrap chain — the coordinator factory rejecting, or `start` failing
(missing client id or executor rejection) — is captured into the builder's
failure path rather than thrown. -/
theorem summarizeOnDemand_throws_iff_precondition :
    ∀ sc : OnDemandScenario,
      ((summarizeOnDemand sc).isThrown = true ↔
        (sc._disposed = true ∨
          (sc.summarizerClientId.isSome ∧ sc.summarizerClientId ≠ sc.clientId))) ∧
      (sc._disposed = false →
        ¬ (sc.summarizerClientId.isSome ∧ sc.summarizerClientId ≠ sc.clientId) →
        ¬ (sc.runningAttached ∧ ¬ sc.runningDisposed) →
        sc.createFails = true →
        summarizeOnDemand sc =
          .returned (.failed "Failed to create cancellation token") OnDemandTrace.none) ∧
      (sc._disposed = false →
        ¬ (sc.summarizerClientId.isSome ∧ sc.summarizerClientId ≠ sc.clientId) →
        ¬ (sc.runningAttached ∧ ¬ sc.runningDisposed) →
        sc.createFails = false →
        (sc.clientId = none ∨ sc.startFails = true) →
        summarizeOnDemand sc =
          .returned (.failed "Failed to start summarizer")
            { OnDemandTrace.none with startDisableHeuristics := some true }) := by
  intro sc
  by_cases h1 : sc._disposed = true
  · simp [summarizeOnDemand, h1, OnDemandResult.isThrown]
  · simp only [Bool.not_eq_true] at h1
    by_cases h2 : sc.summarizerClientId.isSome ∧ sc.summarizerClientId ≠ sc.clientId
    · simp [summarizeOnDemand, h1, h2, OnDemandResult.isThrown]
    · by_cases h3 : sc.runningAttached ∧ ¬ sc.runningDisposed
      · simp [summarizeOnDemand, h1, h2, h3, OnDemandResult.isThrown]
      · simp only [Bool.not_eq_true] at h3
        by_cases h4 : sc.createFails = true
        · simp [summarizeOnDemand, h1, h2, h3, h4, OnDemandResult.isThrown]
        · simp only [Bool.not_eq_true] at h4
          by_cases h5 : sc.clientId = none ∨ sc.startFails = true
          · have h5' : sc.clientId = none ∨ sc.startFails := by
              rcases h5 with h | h
              · exact Or.inl h
              · exact Or.inr h
            simp [summarizeOnDemand, h1, h2, h3, h4, h5', OnDemandResult.isThrown]
          · have h5' : ¬ (sc.clientId = none ∨ sc.startFails) := by
              intro h
              rcases h with h | h
              · exact h5 (Or.inl h)
              · exact h5 (Or.inr h)
            simp [summarizeOnDemand, h1, h2, h3, h4, h5', OnDemandResult.isThrown, h5]

/-- Witness for C8: a disposed coordinator makes `summarizeOnDemand` throw
synchronously, and a coordinator-factory rejection on the slow path is
captured into the builder's failure path. -/
theorem summarizeOnDemand_throws_iff_precondition_witness :
    (summarizeOnDemand { _disposed := true,
                         summarizerClientId := none,
                         clientId := some "c",
                         runningAttached := false,
                         runningDisposed := false,
                         createFails := false,
                         startFails := false,
                         teardownReason := "" }).isThrown = true ∧
    summarizeOnDemand { _disposed := false,
                        summarizerClientId := none,
                        clientId := some "c",
                        runningAttached := false,
                        runningDisposed := false,
                        createFails := true,
                        startFails := false,
                        teardownReason := "" } =
      .returned (.failed "Failed to create cancellation token") OnDemandTrace.none := by
  have h := summarizeOnDemand_throws_iff_precondition
    { _disposed := true, summarizerClientId := none, clientId := some "c",
      runningAttached := false, runningDisposed := false, createFails := false,
      startFails := false, teardownReason := "" }
  have h' := summarizeOnDemand_throws_iff_precondition
    { _disposed := false, summarizerClientId := none, clientId := some "c",
      runningAttached := false, runningDisposed := false, createFails := true,
      startFails := false, teardownReason := "" }
  exact ⟨h.1.mpr (Or.inl rfl), h'.2.1 rfl (by simp) (by simp) rfl⟩

/-- C9: when `summarizeOnDemand` passes its preconditions with no executor
attached and the bootstrap succeeds, the executor is started with
`disableHeuristics = true`, the request is forwarded to the new executor,
and the chained teardown races the `StopRequest` against the new token's
cancellation, calls `waitStop` with `allowLastSummary = false`, stops the
token with the winning reason, and disposes the coordinator (closing the
runtime). -/
theorem summarizeOnDemand_bootstrap_teardown :
    ∀ sc : OnDemandScenario,
      sc._disposed = false →
      ¬ (sc.summarizerClientId.isSome ∧ sc.summarizerClientId ≠ sc.clientId) →
      sc.runningAttached = false →
      sc.createFails = false →
      sc.clientId.isSome →
      sc.startFails = false →
      summarizeOnDemand sc =
        .returned .success
          { startDisableHeuristics := some true,
            forwardedToRunning := false,
            forwardedToNew := true,
            waitStopCalls := [false],
            coordStopCalls := [sc.teardownReason],
            disposeCalls := 1,
            closeFnCalls := 1 } := by
  intro sc h1 h2 h3 h4 h5 h6
  rcases hcl : sc.clientId with _ | c
  · rw [hcl] at h5; simp at h5
  · rw [hcl] at h2
    simp [summarizeOnDemand, h1, h3, h4, h6, hcl]
    intro hs
    by_contra hne
    exact h2 ⟨hs, hne⟩

/-- Witness for C9 at a concrete bootstrap scenario. -/
theorem summarizeOnDemand_bootstrap_teardown_witness :
    summarizeOnDemand { _disposed := false,
                        summarizerClientId := none,
                        clientId := some "c",
                        runningAttached := false,
                        runningDisposed := false,
                        createFails := false,
                        startFails := false,
                        teardownReason := "summarizerClientDisconnected" } =
      .returned .success
        { startDisableHeuristics := some true,
          forwardedToRunning := false,
          forwardedToNew := true,
          waitStopCalls := [false],
          coordStopCalls := ["summarizerClientDisconnected"],
          disposeCalls := 1,
          closeFnCalls := 1 } := by
  exact summarizeOnDemand_bootstrap_teardown
    { _disposed := false, summarizerClientId := none, clientId := some "c",
      runningAttached := false, runningDisposed := false, createFails := false,
      startFails := false, teardownReason := "summarizerClientDisconnected" }
    rfl (by simp) rfl rfl rfl rfl

end Summarizer
